import Mathlib

/-!
Verification of the HW3 midpoint-rule numerical integrator
(src/Assignments/HW3/main.cpp).

The C++ `float` values are embedded as exact rationals (`ℚ`), the usual
idealization of the real-arithmetic algorithm the code implements;
machine `int` values are embedded as `Int`.  The C loop
`for (int i = 0; i < n; ++i)` runs `n.toNat` iterations (zero when
`n ≤ 0`), which `List.range n.toNat` models exactly, in ascending index
order.  The literal `0.5f` is exactly `1/2`.
-/

/-- The integrand signature `float (*)(float, int)` from the source
(`typedef float (*FuncPtr)(float, int);`). -/
def FuncPtr : Type := ℚ → Int → ℚ

/-- `numericalIntegration` from src/Assignments/HW3/main.cpp: midpoint-rule
integration.  `dx = (b - a) / n`; the loop accumulates
`sum += f(a + (i + 0.5) * dx, intensity)` for `i = 0 .. n-1` and the
routine returns `sum * dx`. -/
def numericalIntegration (f : FuncPtr) (a b : ℚ) (n : Int) (intensity : Int) : ℚ :=
  let dx : ℚ := (b - a) / (n : ℚ)
  let sum : ℚ :=
    (List.range n.toNat).foldl (fun sum (i : ℕ) => sum + f (a + ((i : ℚ) + 1/2) * dx) intensity) 0
  sum * dx

/-- Sequential left-to-right accumulation of `g 0, g 1, ..., g (m-1)` in
ascending index order, as the C loop performs it. -/
def sequentialSum (g : ℕ → ℚ) (m : ℕ) : ℚ :=
  (List.range m).foldl (fun s i => s + g i) 0

/-- The `switch (functionId)` dispatch in `main`: functionId 1..4 select
`f1..f4`; any other value falls to the `default` branch (no integrand). -/
def selectFunc (functionId : Int) (f1 f2 f3 f4 : FuncPtr) : Option FuncPtr :=
  if functionId = 1 then some f1
  else if functionId = 2 then some f2
  else if functionId = 3 then some f3
  else if functionId = 4 then some f4
  else none

/-- One operation applied to the standard-output stream in `main`:
`std::setprecision`, `std::fixed`, a numeric value, a literal string, or
`std::endl`. -/
inductive OutTok where
  | setprec (digits : ℕ)
  | fixed
  | val (q : ℚ)
  | str (s : String)
  | endl
  deriving DecidableEq

/-- Observable outcome of one run of `main`: the process exit code, the
lines written to standard error, the token stream written to standard
output, and an instrumentation flag recording whether
`numericalIntegration` was invoked. -/
structure MainOutcome where
  exitCode : Int
  stderrLines : List String
  stdout : List OutTok
  integrated : Bool
  deriving DecidableEq

/-- The usage diagnostic printed by `main` when too few arguments are
supplied (`argv[0]` is the program name). -/
def usageMsg (prog : String) : String :=
  "usage: " ++ prog ++ " <functionid> <a> <b> <n> <intensity>"

/-- The diagnostic printed by the `default` branch of the dispatch switch. -/
def invalidIdMsg : String :=
  "Error: Invalid function ID (must be 1, 2, 3, or 4)"

/-- `main` from src/Assignments/HW3/main.cpp as a pure function.  It is
parametric in the libc conversions `atoi`/`atof`, in the four externally
linked integrands `f1..f4`, and in the (nondeterministic) wall-clock
measurement `elapsed`; `argv` is the full argument vector including the
program name, so `argv.length` is `argc`.  The body mirrors the source:
the `argc < 6` usage gate, parsing of the five positional values, the
dispatch switch, the timed call to `numericalIntegration`, and the final
`setprecision(15) << result << " " << fixed << setprecision(6) << elapsed
<< endl` output statement. -/
def mainRun (atoi : String → Int) (atof : String → ℚ) (f1 f2 f3 f4 : FuncPtr)
    (elapsed : ℚ) (argv : List String) : MainOutcome :=
  if argv.length < 6 then
    { exitCode := -1
      stderrLines := [usageMsg (argv.headD "")]
      stdout := []
      integrated := false }
  else
    let functionId : Int := atoi (argv.getD 1 "")
    let a : ℚ := atof (argv.getD 2 "")
    let b : ℚ := atof (argv.getD 3 "")
    let n : Int := atoi (argv.getD 4 "")
    let intensity : Int := atoi (argv.getD 5 "")
    match selectFunc functionId f1 f2 f3 f4 with
    | none =>
        { exitCode := -1
          stderrLines := [invalidIdMsg]
          stdout := []
          integrated := false }
    | some f =>
        let result : ℚ := numericalIntegration f a b n intensity
        { exitCode := 0
          stderrLines := []
          stdout := [OutTok.setprec 15, OutTok.val result, OutTok.str " ",
                     OutTok.fixed, OutTok.setprec 6, OutTok.val elapsed, OutTok.endl]
          integrated := true }

/-- Unfolding the sequential accumulation into a `Finset` sum. -/
lemma sequentialSum_eq_sum (g : ℕ → ℚ) (m : ℕ) :
    sequentialSum g m = ∑ i in Finset.range m, g i := by
  induction m with
  | zero => rfl
  | succ m ih =>
      rw [sequentialSum, List.range_succ, List.foldl_append, List.foldl_cons, List.foldl_nil,
        Finset.sum_range_succ, ← ih, sequentialSum]

/-- `numericalIntegration` is the sequential accumulation times the step. -/
lemma numericalIntegration_eq_sequentialSum (f : FuncPtr) (a b : ℚ) (n : Int) (k : Int) :
    numericalIntegration f a b n k =
      sequentialSum (fun i => f (a + ((i : ℚ) + 1/2) * ((b - a) / (n : ℚ))) k) n.toNat *
        ((b - a) / (n : ℚ)) := by
  simp only [numericalIntegration, sequentialSum]

/-- Closed form of `numericalIntegration` as a `Finset` sum. -/
lemma numericalIntegration_eq_finsum (f : FuncPtr) (a b : ℚ) (n : Int) (k : Int) :
    numericalIntegration f a b n k =
      (∑ i in Finset.range n.toNat, f (a + ((i : ℚ) + 1/2) * ((b - a) / (n : ℚ))) k) *
        ((b - a) / (n : ℚ)) := by
  rw [numericalIntegration_eq_sequentialSum, sequentialSum_eq_sum]

/-- For `1 ≤ n` the cast of the loop bound agrees with `n` itself. -/
lemma toNat_cast_eq (n : Int) (hn : 1 ≤ n) : ((n.toNat : ℕ) : ℚ) = (n : ℚ) := by
  exact_mod_cast congrArg (fun z : Int => (z : ℚ)) (Int.toNat_of_nonneg (by omega))

/-- For `1 ≤ n` the divisor is a nonzero rational. -/
lemma cast_ne_zero_of_one_le (n : Int) (hn : 1 ≤ n) : (n : ℚ) ≠ 0 := by
  have : (0 : ℚ) < (n : ℚ) := by exact_mod_cast lt_of_lt_of_le Int.zero_lt_one hn
  exact ne_of_gt this

/-- Claim C1: for `n ≥ 1`, `numericalIntegration f a b n k` computes
`dx = (b - a) / n`, evaluates `f` at every midpoint `a + (i + 0.5) * dx`
for `i = 0 .. n-1` with the intensity `k` passed through unchanged, and
returns the accumulated sum times `dx`. -/
theorem c1_midpoint_algorithm (f : FuncPtr) (a b : ℚ) (n k : Int) (_hn : 1 ≤ n) :
    numericalIntegration f a b n k =
      (∑ i in Finset.range n.toNat, f (a + ((i : ℚ) + 1/2) * ((b - a) / (n : ℚ))) k) *
        ((b - a) / (n : ℚ)) :=
  numericalIntegration_eq_finsum f a b n k

/-- Witness for C1 at `f = (x, k) ↦ x`, `a = 0`, `b = 1`, `n = 2`, `k = 3`. -/
theorem c1_midpoint_algorithm_witness :
    (1 : Int) ≤ 2 ∧
    numericalIntegration (fun x _ => x) 0 1 2 3 =
      (∑ i in Finset.range (2 : Int).toNat,
        (fun (x : ℚ) (_ : Int) => x) (0 + ((i : ℚ) + 1/2) * ((1 - 0) / ((2 : Int) : ℚ))) 3) *
        ((1 - 0) / ((2 : Int) : ℚ)) :=
  ⟨by decide, c1_midpoint_algorithm (fun x _ => x) 0 1 2 3 (by decide)⟩

/-- Claim C6: integrating the constant integrand `1` over `[a, b]` with any
`n ≥ 1` yields exactly `b - a` (exact in the rational embedding). -/
theorem c6_constant_integrand (a b : ℚ) (n k : Int) (hn : 1 ≤ n) :
    numericalIntegration (fun _ _ => 1) a b n k = b - a := by
  rw [numericalIntegration_eq_finsum]
  rw [Finset.sum_const, Finset.card_range, nsmul_eq_mul, mul_one]
  rw [toNat_cast_eq n hn]
  field_simp

/-- Witness for C6 at `a = 2`, `b = 7`, `n = 3`, `k = 0`. -/
theorem c6_constant_integrand_witness :
    (1 : Int) ≤ 3 ∧ numericalIntegration (fun _ _ => 1) 2 7 3 0 = 7 - 2 :=
  ⟨by decide, c6_constant_integrand 2 7 3 0 (by decide)⟩

/-- Claim C8: under the precondition `n ≥ 1` the divisor of `dx = (b-a)/n`
is nonzero and the routine completes, returning the accumulated sum times
the step; moreover the routine applies the same unguarded formula to every
`n`, including `n ≤ 0` — it contains no guard and trusts its caller. -/
theorem c8_trusts_caller (f : FuncPtr) (a b : ℚ) (n k : Int) (hn : 1 ≤ n) :
    (n : ℚ) ≠ 0 ∧
    (∀ m : Int, numericalIntegration f a b m k =
      sequentialSum (fun i => f (a + ((i : ℚ) + 1/2) * ((b - a) / (m : ℚ))) k) m.toNat *
        ((b - a) / (m : ℚ))) :=
  ⟨cast_ne_zero_of_one_le n hn, fun m => numericalIntegration_eq_sequentialSum f a b m k⟩

/-- Witness for C8 at `f = (x, k) ↦ x + k`, `a = 1`, `b = 4`, `n = 5`, `k = 2`. -/
theorem c8_trusts_caller_witness :
    (1 : Int) ≤ 5 ∧
    (((5 : Int) : ℚ) ≠ 0 ∧
    (∀ m : Int, numericalIntegration (fun x k => x + k) 1 4 m 2 =
      sequentialSum (fun i => (fun (x : ℚ) (k : Int) => x + k)
        (1 + ((i : ℚ) + 1/2) * ((4 - 1) / (m : ℚ))) 2) m.toNat *
        ((4 - 1) / (m : ℚ)))) :=
  ⟨by decide, c8_trusts_caller (fun x k => x + k) 1 4 5 2 (by decide)⟩

/-- Claim C10: for negative `n` the loop runs zero iterations, the result
does not depend on the integrand at all (so `f` is never consulted), and
the routine returns `0 * ((b - a) / n)` — zero — without faulting. -/
theorem c10_negative_n (f : FuncPtr) (a b : ℚ) (n k : Int) (hn : n < 0) :
    numericalIntegration f a b n k = 0 * ((b - a) / (n : ℚ)) ∧
    (∀ g : FuncPtr, numericalIntegration g a b n k = numericalIntegration f a b n k) := by
  have h0 : n.toNat = 0 := Int.toNat_eq_zero.mpr (le_of_lt hn)
  constructor
  · simp [numericalIntegration, h0]
  · intro g
    simp [numericalIntegration, h0]

/-- Witness for C10 at `f = (x, k) ↦ x * x`, `a = 0`, `b = 1`, `n = -3`, `k = 1`. -/
theorem c10_negative_n_witness :
    (-3 : Int) < 0 ∧
    (numericalIntegration (fun x _ => x * x) 0 1 (-3) 1 = 0 * ((1 - 0) / ((-3 : Int) : ℚ)) ∧
    (∀ g : FuncPtr, numericalIntegration g 0 1 (-3) 1 =
      numericalIntegration (fun x _ => x * x) 0 1 (-3) 1)) :=
  ⟨by decide, c10_negative_n (fun x _ => x * x) 0 1 (-3) 1 (by decide)⟩

/-- Claim C7: the Integrator is deterministic — any integrand producing the
same outputs on both evaluations yields bit-for-bit the same result — and
the accumulation is the sequential left-to-right sum over the ascending
index order `i = 0 .. n-1`. -/
theorem c7_deterministic (f g : FuncPtr) (a b : ℚ) (n k : Int)
    (hfg : ∀ x j, f x j = g x j) :
    numericalIntegration f a b n k = numericalIntegration g a b n k ∧
    numericalIntegration f a b n k =
      sequentialSum (fun i => f (a + ((i : ℚ) + 1/2) * ((b - a) / (n : ℚ))) k) n.toNat *
        ((b - a) / (n : ℚ)) := by
  have hfg' : f = g := funext fun x => funext fun j => hfg x j
  exact ⟨by rw [hfg'], numericalIntegration_eq_sequentialSum f a b n k⟩

/-- Witness for C7 at `f = g = (x, k) ↦ x`, `a = 0`, `b = 1`, `n = 4`, `k = 0`. -/
theorem c7_deterministic_witness :
    (∀ (x : ℚ) (j : Int), (fun (x : ℚ) (_ : Int) => x) x j = (fun (x : ℚ) (_ : Int) => x) x j) ∧
    (numericalIntegration (fun x _ => x) 0 1 4 0 = numericalIntegration (fun x _ => x) 0 1 4 0 ∧
    numericalIntegration (fun x _ => x) 0 1 4 0 =
      sequentialSum (fun i => (fun (x : ℚ) (_ : Int) => x)
        (0 + ((i : ℚ) + 1/2) * ((1 - 0) / ((4 : Int) : ℚ))) 0) (4 : Int).toNat *
        ((1 - 0) / ((4 : Int) : ℚ))) :=
  ⟨fun _ _ => rfl, c7_deterministic (fun x _ => x) (fun x _ => x) 0 1 4 0 (fun _ _ => rfl)⟩

/-- Claim C5: swapping the integration bounds exactly negates the result:
`numericalIntegration f a b n k = -numericalIntegration f b a n k` for
every integrand, bounds, `n ≥ 1`, and intensity. -/
theorem c5_bound_reversal (f : FuncPtr) (a b : ℚ) (n k : Int) (hn : 1 ≤ n) :
    numericalIntegration f a b n k = - numericalIntegration f b a n k := by
  have hnz : (n : ℚ) ≠ 0 := cast_ne_zero_of_one_le n hn
  have hm : ((n.toNat : ℕ) : ℚ) = (n : ℚ) := toNat_cast_eq n hn
  rw [numericalIntegration_eq_finsum, numericalIntegration_eq_finsum]
  have hdx : (a - b) / (n : ℚ) = -((b - a) / (n : ℚ)) := by ring
  rw [hdx, mul_neg, neg_neg]
  congr 1
  have hba : ((n.toNat : ℕ) : ℚ) * ((b - a) / (n : ℚ)) = b - a := by
    rw [hm]; field_simp
  conv_lhs => rw [← Finset.sum_range_reflect]
  refine Finset.sum_congr rfl fun i hi => ?_
  have him : i < n.toNat := Finset.mem_range.mp hi
  have hc : ((n.toNat - 1 - i : ℕ) : ℚ) = ((n.toNat : ℕ) : ℚ) - 1 - (i : ℚ) := by
    rw [Nat.cast_sub (by omega : i ≤ n.toNat - 1), Nat.cast_sub (by omega : 1 ≤ n.toNat)]
    norm_num
  have hpt : a + (((n.toNat - 1 - i : ℕ) : ℚ) + 1/2) * ((b - a) / (n : ℚ)) =
      b + ((i : ℚ) + 1/2) * -((b - a) / (n : ℚ)) := by
    rw [hc]
    linear_combination hba
  rw [hpt]

/-- Witness for C5 at `f = (x, k) ↦ x`, `a = 0`, `b = 1`, `n = 2`, `k = 0`. -/
theorem c5_bound_reversal_witness :
    (1 : Int) ≤ 2 ∧
    numericalIntegration (fun x _ => x) 0 1 2 0 = - numericalIntegration (fun x _ => x) 1 0 2 0 :=
  ⟨by decide, c5_bound_reversal (fun x _ => x) 0 1 2 0 (by decide)⟩

/-- Claim C2: `functionId = 1..4` selects exactly `f1..f4` respectively; any
other id selects no integrand (the `default` branch, no silent default), and
such a run is rejected with exit code `-1` and no integration performed. -/
theorem c2_dispatch (f1 f2 f3 f4 : FuncPtr) :
    selectFunc 1 f1 f2 f3 f4 = some f1 ∧
    selectFunc 2 f1 f2 f3 f4 = some f2 ∧
    selectFunc 3 f1 f2 f3 f4 = some f3 ∧
    selectFunc 4 f1 f2 f3 f4 = some f4 ∧
    ∀ fid : Int, fid ≠ 1 → fid ≠ 2 → fid ≠ 3 → fid ≠ 4 →
      selectFunc fid f1 f2 f3 f4 = none ∧
      ∀ (atoi : String → Int) (atof : String → ℚ) (elapsed : ℚ) (argv : List String),
        6 ≤ argv.length → atoi (argv.getD 1 "") = fid →
          (mainRun atoi atof f1 f2 f3 f4 elapsed argv).integrated = false ∧
          (mainRun atoi atof f1 f2 f3 f4 elapsed argv).exitCode = -1 := by
  refine ⟨by simp [selectFunc], by simp [selectFunc], by simp [selectFunc],
    by simp [selectFunc], ?_⟩
  intro fid h1 h2 h3 h4
  have hsel : selectFunc fid f1 f2 f3 f4 = none := by
    simp only [selectFunc]
    rw [if_neg h1, if_neg h2, if_neg h3, if_neg h4]
  refine ⟨hsel, ?_⟩
  intro atoi atof elapsed argv hlen hid
  have hmain : mainRun atoi atof f1 f2 f3 f4 elapsed argv =
      { exitCode := -1, stderrLines := [invalidIdMsg], stdout := [], integrated := false } := by
    simp only [mainRun]
    rw [if_neg (by omega), hid, hsel]
  rw [hmain]
  exact ⟨rfl, rfl⟩

/-- Witness for C2 at `fid = 7` with four constant integrands and a
six-element argument vector. -/
theorem c2_dispatch_witness :
    selectFunc 7 (fun _ _ => 1) (fun _ _ => 2) (fun _ _ => 3) (fun _ _ => 4) = none ∧
    (mainRun (fun _ => 7) (fun _ => 0) (fun _ _ => 1) (fun _ _ => 2) (fun _ _ => 3)
      (fun _ _ => 4) 0 ["prog", "7", "0", "1", "10", "0"]).integrated = false := by
  have h := (c2_dispatch (fun _ _ => 1) (fun _ _ => 2) (fun _ _ => 3)
    (fun _ _ => 4)).2.2.2.2 7 (by decide) (by decide) (by decide) (by decide)
  exact ⟨h.1, (h.2 (fun _ => 7) (fun _ => 0) 0 ["prog", "7", "0", "1", "10", "0"]
    (by decide) rfl).1⟩

/-- Claim C3: with at least five positional arguments and a `functionId`
outside `{1, 2, 3, 4}`, the program writes exactly the invalid-id
diagnostic to standard error, exits with status `-1`, performs no
integration and writes nothing to standard output. -/
theorem c3_invalid_id (atoi : String → Int) (atof : String → ℚ) (f1 f2 f3 f4 : FuncPtr)
    (elapsed : ℚ) (argv : List String) (hlen : 6 ≤ argv.length)
    (h1 : atoi (argv.getD 1 "") ≠ 1) (h2 : atoi (argv.getD 1 "") ≠ 2)
    (h3 : atoi (argv.getD 1 "") ≠ 3) (h4 : atoi (argv.getD 1 "") ≠ 4) :
    mainRun atoi atof f1 f2 f3 f4 elapsed argv =
      { exitCode := -1
        stderrLines := ["Error: Invalid function ID (must be 1, 2, 3, or 4)"]
        stdout := []
        integrated := false } := by
  have hsel : selectFunc (atoi (argv.getD 1 "")) f1 f2 f3 f4 = none := by
    simp only [selectFunc]
    rw [if_neg h1, if_neg h2, if_neg h3, if_neg h4]
  simp only [mainRun]
  rw [if_neg (by omega), hsel]
  rfl

/-- Witness for C3 with `atoi ≡ 7` and a six-element argument vector. -/
theorem c3_invalid_id_witness :
    6 ≤ (["prog", "7", "0", "1", "10", "0"] : List String).length ∧
    mainRun (fun _ => 7) (fun _ => 0) (fun _ _ => 1) (fun _ _ => 2) (fun _ _ => 3)
        (fun _ _ => 4) 0 ["prog", "7", "0", "1", "10", "0"] =
      { exitCode := -1
        stderrLines := ["Error: Invalid function ID (must be 1, 2, 3, or 4)"]
        stdout := []
        integrated := false } :=
  ⟨by decide, c3_invalid_id (fun _ => 7) (fun _ => 0) (fun _ _ => 1) (fun _ _ => 2)
    (fun _ _ => 3) (fun _ _ => 4) 0 ["prog", "7", "0", "1", "10", "0"]
    (by decide) (by decide) (by decide) (by decide) (by decide)⟩

/-- Claim C4: with fewer than five positional parameters the program writes
the usage message (naming `argv[0]`) to standard error, exits with code
`-1`, performs no integration and writes nothing to standard output; the
outcome does not depend on the parsing functions at all — the argument
count is checked before any value is parsed. -/
theorem c4_usage_gate (atoi : String → Int) (atof : String → ℚ) (f1 f2 f3 f4 : FuncPtr)
    (elapsed : ℚ) (argv : List String) (hlen : argv.length < 6) :
    mainRun atoi atof f1 f2 f3 f4 elapsed argv =
      { exitCode := -1
        stderrLines := [usageMsg (argv.headD "")]
        stdout := []
        integrated := false } ∧
    ∀ (atoi' : String → Int) (atof' : String → ℚ),
      mainRun atoi' atof' f1 f2 f3 f4 elapsed argv =
        mainRun atoi atof f1 f2 f3 f4 elapsed argv := by
  constructor
  · rw [mainRun, if_pos hlen]
  · intro atoi' atof'
    rw [mainRun, if_pos hlen, mainRun, if_pos hlen]

/-- Witness for C4 with the two-element argument vector `["prog", "1"]`. -/
theorem c4_usage_gate_witness :
    (["prog", "1"] : List String).length < 6 ∧
    (mainRun (fun _ => 1) (fun _ => 0) (fun _ _ => 1) (fun _ _ => 2) (fun _ _ => 3)
        (fun _ _ => 4) 0 ["prog", "1"] =
      { exitCode := -1
        stderrLines := [usageMsg "prog"]
        stdout := []
        integrated := false } ∧
    ∀ (atoi' : String → Int) (atof' : String → ℚ),
      mainRun atoi' atof' (fun _ _ => 1) (fun _ _ => 2) (fun _ _ => 3) (fun _ _ => 4)
          0 ["prog", "1"] =
        mainRun (fun _ => 1) (fun _ => 0) (fun _ _ => 1) (fun _ _ => 2) (fun _ _ => 3)
          (fun _ _ => 4) 0 ["prog", "1"]) :=
  ⟨by decide, c4_usage_gate (fun _ => 1) (fun _ => 0) (fun _ _ => 1) (fun _ _ => 2)
    (fun _ _ => 3) (fun _ _ => 4) 0 ["prog", "1"] (by decide)⟩

/-- Claim C9: on every successful run (enough arguments and a valid
`functionId`), the program writes to standard output exactly one line —
the integration result under `setprecision(15)` in the default floating
format, a single space, and the elapsed seconds under
`fixed << setprecision(6)` — and exits with code `0`, with nothing on
standard error. -/
theorem c9_success_output (atoi : String → Int) (atof : String → ℚ)
    (f1 f2 f3 f4 f : FuncPtr) (elapsed : ℚ) (argv : List String)
    (hlen : 6 ≤ argv.length)
    (hsel : selectFunc (atoi (argv.getD 1 "")) f1 f2 f3 f4 = some f) :
    mainRun atoi atof f1 f2 f3 f4 elapsed argv =
      { exitCode := 0
        stderrLines := []
        stdout := [OutTok.setprec 15,
                   OutTok.val (numericalIntegration f (atof (argv.getD 2 ""))
                     (atof (argv.getD 3 "")) (atoi (argv.getD 4 "")) (atoi (argv.getD 5 ""))),
                   OutTok.str " ", OutTok.fixed, OutTok.setprec 6, OutTok.val elapsed,
                   OutTok.endl]
        integrated := true } := by
  simp only [mainRun]
  rw [if_neg (by omega), hsel]

/-- Witness for C9 with `atoi ≡ 1` (selecting `f1`) and a six-element
argument vector. -/
theorem c9_success_output_witness :
    (6 ≤ (["prog", "1", "0", "1", "10", "0"] : List String).length ∧
      selectFunc ((fun _ => (1 : Int)) ((["prog", "1", "0", "1", "10", "0"] : List String).getD 1 ""))
        (fun x _ => x) (fun _ _ => 2) (fun _ _ => 3) (fun _ _ => 4) = some (fun x _ => x)) ∧
    mainRun (fun _ => 1) (fun _ => 0) (fun x _ => x) (fun _ _ => 2) (fun _ _ => 3)
        (fun _ _ => 4) 0 ["prog", "1", "0", "1", "10", "0"] =
      { exitCode := 0
        stderrLines := []
        stdout := [OutTok.setprec 15,
                   OutTok.val (numericalIntegration (fun x _ => x) 0 0 1 1),
                   OutTok.str " ", OutTok.fixed, OutTok.setprec 6, OutTok.val 0,
                   OutTok.endl]
        integrated := true } :=
  ⟨⟨by decide, rfl⟩,
    c9_success_output (fun _ => 1) (fun _ => 0) (fun x _ => x) (fun _ _ => 2)
      (fun _ _ => 3) (fun _ _ => 4) (fun x _ => x) 0 ["prog", "1", "0", "1", "10", "0"]
      (by decide) rfl⟩
